import Mathlib

/-!
Verification of the e2slib energy-analysis library against its specification.

Single-column pandas DataFrames are modelled as `List ℚ` (row-aligned by
position); time-indexed single-column tables, where the row index matters, as
`List (Int × ℚ)` (index instant, value).  Machine floats are modelled by exact
rationals; the one place where IEEE semantics differs in an essential way
(division by an exactly-zero denominator, which yields NaN/±inf rather than a
number) is modelled by `Option ℚ` with `none` for the undefined result.
-/

set_option maxHeartbeats 1000000
set_option maxRecDepth 8000

namespace E2s

/-! ## structures/enums.py -/

/-- Technology types, from `enums.TechnologyType` (values are the display
strings, irrelevant here). -/
inductive TechnologyType
  | PV
  | EV
  | WINDTURBINE
  | CHPPLANT
  | BOILERPLANT
  | UNCATEGORIZED
  | HEATPUMP
  | GRID
  | SITE
deriving DecidableEq, Repr

/-- Physical quantities, from `enums.PhysicalQuantity` (member raw values are
`auto()` integers 1..7 in declaration order). -/
inductive PhysicalQuantity
  | TEMPERATURE
  | ENERGY
  | TIME
  | MASS
  | LENGTH
  | POWER
  | UNCATEGORIZED
deriving DecidableEq, Repr

/-- The `auto()` raw value of each `PhysicalQuantity` member. -/
def PhysicalQuantity.value : PhysicalQuantity → Int
  | .TEMPERATURE => 1
  | .ENERGY => 2
  | .TIME => 3
  | .MASS => 4
  | .LENGTH => 5
  | .POWER => 6
  | .UNCATEGORIZED => 7

/-- Lookup of a `PhysicalQuantity` by raw value: `PhysicalQuantity(v)` in
Python returns the member with that value, and `_missing_` maps every other
value to `UNCATEGORIZED` (enums.py lines 73-75). -/
def PhysicalQuantity.ofValue (v : Int) : PhysicalQuantity :=
  if v = 1 then .TEMPERATURE
  else if v = 2 then .ENERGY
  else if v = 3 then .TIME
  else if v = 4 then .MASS
  else if v = 5 then .LENGTH
  else if v = 6 then .POWER
  else if v = 7 then .UNCATEGORIZED
  else .UNCATEGORIZED

/-- Energy carriers, from `enums.EnergyCarrier` (member raw values are
`auto()` integers 1..6 in declaration order). -/
inductive EnergyCarrier
  | ELECTRICITY
  | NATURALGAS
  | HEATING
  | COOLING
  | UNCATEGORIZED
  | NONE
deriving DecidableEq, Repr

/-- The `auto()` raw value of each `EnergyCarrier` member. -/
def EnergyCarrier.value : EnergyCarrier → Int
  | .ELECTRICITY => 1
  | .NATURALGAS => 2
  | .HEATING => 3
  | .COOLING => 4
  | .UNCATEGORIZED => 5
  | .NONE => 6

/-- Lookup of an `EnergyCarrier` by raw value: `EnergyCarrier(v)` in Python
returns the member with that value, and `_missing_` maps every other value to
`NONE` (enums.py lines 100-102). -/
def EnergyCarrier.ofValue (v : Int) : EnergyCarrier :=
  if v = 1 then .ELECTRICITY
  else if v = 2 then .NATURALGAS
  else if v = 3 then .HEATING
  else if v = 4 then .COOLING
  else if v = 5 then .UNCATEGORIZED
  else if v = 6 then .NONE
  else .NONE

/-- Seasons, from `enums.Season`. -/
inductive Season
  | WINTER
  | SUMMER
  | SPRING
  | AUTUMN
deriving DecidableEq, Repr

/-! ## utillib/functions.py -/

/-- `functions.get_season`: month 3-5 spring, 6-8 summer, 9-11 autumn,
everything else winter. -/
def get_season (month : Nat) : Season :=
  if 3 ≤ month ∧ month ≤ 5 then .SPRING
  else if 6 ≤ month ∧ month ≤ 8 then .SUMMER
  else if 9 ≤ month ∧ month ≤ 11 then .AUTUMN
  else .WINTER

/-- Season-number map used by `add_time_features`:
winter 1, spring 2, summer 3, autumn 4. -/
def season_number : Season → Nat
  | .WINTER => 1
  | .SPRING => 2
  | .SUMMER => 3
  | .AUTUMN => 4

/-- One timestamp of a DatetimeIndex, restricted to the calendar attributes
that `functions.add_time_features` reads. -/
structure Timestamp where
  hour : Nat
  minute : Nat
  month : Nat
  dayofweek : Nat
  dayofyear : Nat
  year : Nat
deriving DecidableEq, Repr

/-- The calendar feature columns appended by `functions.add_time_features`
for one row. -/
structure TimeFeatures where
  hour : Nat
  dayofweek : Nat
  dayofyear : Nat
  month : Nat
  year : Nat
  weekday_flag : String
  halfhour : Nat
  season : Season
  season_num : Nat
deriving DecidableEq, Repr

/-- `functions.add_time_features` (lines 27-68): derives the calendar feature
columns row by row from the time index.  The half-hour index is
`hour * 2 + minute // 30` with truncating integer division, cast to int. -/
def add_time_features (rows : List Timestamp) : List TimeFeatures :=
  rows.map (fun t =>
    ⟨t.hour, t.dayofweek, t.dayofyear, t.month, t.year,
      if t.dayofweek < 5 then "weekday" else "weekend",
      t.hour * 2 + t.minute / 30,
      get_season t.month,
      season_number (get_season t.month)⟩)

/-! ## analysis/site.py -/

/-- The state of a `Site` that `get_avoided_electricity_import` reads: its
(formatted, single-column) `site_electricity_demand` table. -/
structure SiteState where
  site_electricity_demand : List ℚ
deriving Repr

/-- `Site.get_import_and_export_demand` (site.py lines 110-134): the import
side is the signed net demand with every negative entry overwritten by zero;
the export side is the signed net demand with every positive entry overwritten
by zero and then negated. -/
def get_import_and_export_demand (dataf : List ℚ) : List ℚ × List ℚ :=
  ⟨dataf.map (fun v => if v < 0 then 0 else v),
    dataf.map (fun v => -(if 0 < v then 0 else v))⟩

/-- `Site.get_avoided_electricity_import` (site.py lines 203-224): starts from
a copy of the onsite generation; at every row where the export demand is
strictly positive the value is overwritten with the site's stored
`site_electricity_demand` at that row. -/
def get_avoided_electricity_import (site : SiteState)
    (onsite_gen export_demand : List ℚ) : List ℚ :=
  List.zipWith (fun og p => if 0 < p.1 then p.2 else og)
    onsite_gen (export_demand.zip site.site_electricity_demand)

/-! ## site/schedule.py -/

/-- One row of a feature table as read by `OccupancySchedule.get_filter`: its
day-of-week column and its half-hour-index (timestep) column. -/
structure ScheduleRow where
  dayofweek : Nat
  halfhour : Nat
deriving DecidableEq, Repr

/-- `OccupancySchedule.or_operator`: position-wise disjunction, truncating to
the shorter list (Python `zip` semantics). -/
def or_operator (list_1 list_2 : List Bool) : List Bool :=
  List.zipWith or list_1 list_2

/-- `OccupancySchedule.and_operator`: position-wise conjunction, truncating to
the shorter list (Python `zip` semantics). -/
def and_operator (list_1 list_2 : List Bool) : List Bool :=
  List.zipWith and list_1 list_2

/-- The default occupancy map installed by `OccupancySchedule.__post_init__`
when no map is supplied: weekdays 0-4 occupied on the inclusive half-hour
interval (16, 34), weekend days 5 and 6 never occupied. -/
def default_occupancy : List (Nat × List (Nat × Nat)) :=
  [⟨0, [⟨16, 34⟩]⟩, ⟨1, [⟨16, 34⟩]⟩, ⟨2, [⟨16, 34⟩]⟩, ⟨3, [⟨16, 34⟩]⟩,
    ⟨4, [⟨16, 34⟩]⟩, ⟨5, []⟩, ⟨6, []⟩]

/-- `OccupancySchedule.get_filter` (schedule.py lines 45-73): for each
configured day, AND the day-of-week equality mask with the OR over that day's
inclusive (start, end) intervals of the two half-hour comparison masks, and OR
the per-day results together, starting from an all-false mask. -/
def get_filter (occupancy_dict : List (Nat × List (Nat × Nat)))
    (dataf : List ScheduleRow) : List Bool :=
  occupancy_dict.foldl
    (fun temp_filt day_entry =>
      let temp_day_filt := dataf.map (fun r => decide (r.dayofweek = day_entry.1))
      let temp_final_time_filt := day_entry.2.foldl
        (fun acc iv =>
          or_operator acc
            (and_operator (dataf.map (fun r => decide (iv.1 ≤ r.halfhour)))
              (dataf.map (fun r => decide (r.halfhour ≤ iv.2)))))
        (List.replicate dataf.length false)
      or_operator temp_filt (and_operator temp_day_filt temp_final_time_filt))
    (List.replicate dataf.length false)

/-- Row-wise meaning of the one default weekday interval (16, 34), inclusive
on both ends; proved below to agree with `get_filter`. -/
def default_interval_occupied (r : ScheduleRow) : Bool :=
  false || (decide (16 ≤ r.halfhour) && decide (r.halfhour ≤ 34))

/-- Row-wise meaning of `get_filter` under the default occupancy map: the OR
over the seven configured days of (day-of-week match AND that day's interval
filter); proved below to agree with `get_filter`. -/
def default_occupied (r : ScheduleRow) : Bool :=
  ((((((false
    || (decide (r.dayofweek = 0) && default_interval_occupied r))
    || (decide (r.dayofweek = 1) && default_interval_occupied r))
    || (decide (r.dayofweek = 2) && default_interval_occupied r))
    || (decide (r.dayofweek = 3) && default_interval_occupied r))
    || (decide (r.dayofweek = 4) && default_interval_occupied r))
    || (decide (r.dayofweek = 5) && false))
    || (decide (r.dayofweek = 6) && false)

/-! ## utillib/dummy_data.py -/

/-- A `datetime.time` value encoded as seconds after midnight.  Python
compares `time` values lexicographically on (hour, minute, second), which is
exactly the numeric order of this encoding. -/
def time_hms (h m s : Nat) : Nat :=
  h * 3600 + m * 60 + s

/-- `dummy_data.dummy_duos_timetable` (lines 64-82): four
(start-time, end-time, rate) bands in declaration order. -/
def dummy_duos_timetable (red amber green day night : ℚ) :
    List (Nat × Nat × ℚ) :=
  [⟨time_hms 16 0 0, time_hms 20 0 0, red + day⟩,
    ⟨time_hms 6 0 0, time_hms 16 0 0, amber + day⟩,
    ⟨time_hms 0 0 0, time_hms 6 0 0, green + night⟩,
    ⟨time_hms 20 0 0, time_hms 23 59 59, green + day⟩]

/-- `dummy_data.dummy_duos_values` (lines 85-103): the timetable at the
default charges red=0.0518, amber=0.00518, green=0.00051, day=0.1950,
night=0.1430. -/
def dummy_duos_values : List (Nat × Nat × ℚ) :=
  dummy_duos_timetable 0.0518 0.00518 0.00051 0.1950 0.1430

/-- The inner loop of `generate_dummy_price_profile` (lines 120-125): scan the
bands in declared order and take the rate of the first band whose inclusive
time-of-day range contains the timestamp's time-of-day; if no band matches the
cell keeps its initial missing value. -/
def price_lookup (bands : List (Nat × Nat × ℚ)) (time_of_day : Nat) :
    Option ℚ :=
  bands.findSome? (fun band =>
    if band.1 ≤ time_of_day ∧ time_of_day ≤ band.2.1 then some band.2.2
    else none)

/-- Gregorian leap-year rule, as implemented by the calendar underlying
`pd.date_range`. -/
def is_leap_year (year : Nat) : Bool :=
  year % 4 == 0 && (year % 100 != 0 || year % 400 == 0)

/-- Number of days in the given year. -/
def days_in_year (year : Nat) : Nat :=
  if is_leap_year year then 366 else 365

/-- `dummy_data.generate_annual_timesteps` (lines 14-27): 30-minute UTC
timestamps from Jan 1 00:00:00 through Dec 31 23:59:59, i.e. 48 per day; each
timestamp is modelled by its time-of-day in seconds, which is all
`generate_dummy_price_profile` reads from it. -/
def generate_annual_timesteps (year : Nat) : List Nat :=
  (List.range (48 * days_in_year year)).map (fun k => (k % 48) * 1800)

/-- `dummy_data.generate_dummy_price_profile` (lines 106-126): one price cell
per annual timestep, filled by the first-matching-band scan. -/
def generate_dummy_price_profile (year : Nat) : List (Option ℚ) :=
  (generate_annual_timesteps year).map (price_lookup dummy_duos_values)

/-! ## analysis/scenario.py and analysis/comparison.py

The two-level (parameter, unit) column/row labels come from
`structures/site_schema.py`, which is imported throughout the code but absent
from the inspected source.  Modelled from the spec: section 4.2 lists the
closed label sets (site-data side and results side) and requires each label to
be unique; the per-technology CAPEX / installed-capacity row labels are built
by prefixing the technology name (scenario.py lines 301-304 and 318-321), so
they are distinct from every schema label. -/

/-- The closed set of row/column labels used by the scenario tables. -/
inductive RowLabel
  | IMPORT_ELECTRICITY_DEMAND
  | EXPORT_ELECTRICITY_DEMAND
  | ELECTRICITY_GENERATION
  | ADDITIONAL_ELECTRICITY_DEMAND
  | INIT_SITE_ELECTRICITY_DEMAND
  | SELF_CONSUMED_ELECTRICITY
  | IMPORT_ELECTRICITY_COSTS
  | EXPORT_ELECTRICITY_REVENUES
  | ELECTRICITY_SAVINGS
  | GHG_EMISSIONS_IMPORT_ELECTRICITY
  | SITE_GHG_EMISSIONS_DISPLACED
  | TOTAL_GHG_EMISSIONS_DISPLACED
  | PEAK_ELECTRICITY_IMPORT
  | PEAK_ELECTRICITY_EXPORT
  | OPEX
  | CAPEX (t : TechnologyType)
  | CAPACITY_INSTALLED (t : TechnologyType)
deriving DecidableEq, Repr

/-- The six columns of the table produced by `Site.export_results`
(site.py lines 226-246), cached by a `Scenario` as `site_energy_demand`. -/
structure SiteEnergyDemand where
  import_demand : List ℚ
  export_demand : List ℚ
  onsite_generation : List ℚ
  additional_demand : List ℚ
  site_demand : List ℚ
  avoided_import : List ℚ
deriving Repr

/-- The twelve columns of the per-timestep table produced by
`Scenario.export_results` (scenario.py lines 242-263), cached as
`summary_results`: the six site-energy-demand columns followed by import
cost, export revenue, savings, import emissions, site displaced emissions and
total displaced emissions. -/
structure SummaryTable where
  import_demand : List ℚ
  export_demand : List ℚ
  onsite_generation : List ℚ
  additional_demand : List ℚ
  site_demand : List ℚ
  avoided_import : List ℚ
  import_costs : List ℚ
  export_revenues : List ℚ
  savings : List ℚ
  emissions_import : List ℚ
  site_displaced : List ℚ
  total_displaced : List ℚ
deriving Repr

/-- The part of the `SiteModel` protocol that `Scenario.get_summary_results`
consumes: the three per-technology mappings, modelled as association lists in
insertion order. -/
structure SiteModelData where
  size_system : List (TechnologyType × ℚ)
  capital_cost : List (TechnologyType × ℚ)
  annual_maintenance_cost : List (TechnologyType × ℚ)
deriving Repr

/-- The fields of a `Scenario` that its summary computation reads. -/
structure Scenario where
  name : String
  site_model : SiteModelData
  site_energy_demand : SiteEnergyDemand
  summary_results : SummaryTable
deriving Repr

/-- `Scenario.import_demand` property: the import-demand column of the cached
site energy demand. -/
def Scenario.import_demand (s : Scenario) : List ℚ :=
  s.site_energy_demand.import_demand

/-- `Scenario.export_demand` property: the export-demand column of the cached
site energy demand. -/
def Scenario.export_demand (s : Scenario) : List ℚ :=
  s.site_energy_demand.export_demand

/-- `pd.Series.max` over a column; the empty case is unreachable under the
non-empty hypotheses of the claims (pandas would give NaN there). -/
def listMax : List ℚ → ℚ
  | [] => 0
  | h :: t => t.foldl max h

/-- `df.loc[label, col] = v` on a single-column label-indexed frame: overwrite
the row carrying the label if present, otherwise append it. -/
def setRow : List (RowLabel × ℚ) → RowLabel → ℚ → List (RowLabel × ℚ)
  | [], lbl, v => [⟨lbl, v⟩]
  | r :: t, lbl, v =>
    if r.1 = lbl then ⟨lbl, v⟩ :: t else r :: setRow t lbl v

/-- `df.loc[label, col]` read on a single-column label-indexed frame (every
read in the code targets a row that exists). -/
def getRow (tbl : List (RowLabel × ℚ)) (lbl : RowLabel) : ℚ :=
  ((tbl.find? (fun r => decide (r.1 = lbl))).map Prod.snd).getD 0

/-- `self.summary_results.sum()` (scenario.py line 331): the column-wise sums
of the cached per-timestep summary table, one labelled row per column, in
column order. -/
def summary_column_sums (t : SummaryTable) : List (RowLabel × ℚ) :=
  [⟨.IMPORT_ELECTRICITY_DEMAND, t.import_demand.sum⟩,
    ⟨.EXPORT_ELECTRICITY_DEMAND, t.export_demand.sum⟩,
    ⟨.ELECTRICITY_GENERATION, t.onsite_generation.sum⟩,
    ⟨.ADDITIONAL_ELECTRICITY_DEMAND, t.additional_demand.sum⟩,
    ⟨.INIT_SITE_ELECTRICITY_DEMAND, t.site_demand.sum⟩,
    ⟨.SELF_CONSUMED_ELECTRICITY, t.avoided_import.sum⟩,
    ⟨.IMPORT_ELECTRICITY_COSTS, t.import_costs.sum⟩,
    ⟨.EXPORT_ELECTRICITY_REVENUES, t.export_revenues.sum⟩,
    ⟨.ELECTRICITY_SAVINGS, t.savings.sum⟩,
    ⟨.GHG_EMISSIONS_IMPORT_ELECTRICITY, t.emissions_import.sum⟩,
    ⟨.SITE_GHG_EMISSIONS_DISPLACED, t.site_displaced.sum⟩,
    ⟨.TOTAL_GHG_EMISSIONS_DISPLACED, t.total_displaced.sum⟩]

/-- `Scenario.get_capex_by_technology` (scenario.py lines 290-305): one row
per technology of the site model's capital-cost mapping. -/
def get_capex_by_technology (s : Scenario) (tbl : List (RowLabel × ℚ)) :
    List (RowLabel × ℚ) :=
  s.site_model.capital_cost.foldl
    (fun acc p => setRow acc (.CAPEX p.1) p.2) tbl

/-- `Scenario.get_capacity_by_technology` (scenario.py lines 307-322): one row
per technology of the site model's installed-size mapping. -/
def get_capacity_by_technology (s : Scenario) (tbl : List (RowLabel × ℚ)) :
    List (RowLabel × ℚ) :=
  s.site_model.size_system.foldl
    (fun acc p => setRow acc (.CAPACITY_INSTALLED p.1) p.2) tbl

/-- `Scenario.calculate_total_opex` (scenario.py lines 265-288): OPEX is first
set to the sum of the annual maintenance costs, then incremented by the import
electricity cost row and decremented by the export revenue row. -/
def calculate_total_opex (s : Scenario) (tbl : List (RowLabel × ℚ)) :
    List (RowLabel × ℚ) :=
  let t1 := setRow tbl .OPEX
    ((s.site_model.annual_maintenance_cost.map Prod.snd).sum)
  setRow t1 .OPEX
    (getRow t1 .OPEX + getRow t1 .IMPORT_ELECTRICITY_COSTS
      - getRow t1 .EXPORT_ELECTRICITY_REVENUES)

/-- `Scenario.get_summary_results` (scenario.py lines 324-345): column-wise
sums of the cached per-timestep summary, then the two peak rows (max of the
import/export demand column times 2), then CAPEX rows, total OPEX and
installed-capacity rows. -/
def Scenario.get_summary_results (s : Scenario) : List (RowLabel × ℚ) :=
  let r1 := setRow (summary_column_sums s.summary_results)
    .PEAK_ELECTRICITY_IMPORT (listMax s.import_demand * 2)
  let r2 := setRow r1 .PEAK_ELECTRICITY_EXPORT (listMax s.export_demand * 2)
  let r3 := get_capex_by_technology s r2
  let r4 := calculate_total_opex s r3
  get_capacity_by_technology s r4

/-- `ScenarioComparison` (comparison.py lines 8-25): a reference scenario and
the list of compared scenarios. -/
structure ScenarioComparison where
  reference_scenario : Scenario
  list_scenarios : List Scenario
deriving Repr

/-- Stable insertion into a name-sorted column list, the building block of
`sorted(self._summary_results.columns)` (comparison.py line 39). -/
def insert_by_name (s : Scenario) : List Scenario → List Scenario
  | [] => [s]
  | h :: t => if s.name ≤ h.name then s :: h :: t else h :: insert_by_name s t

/-- Alphabetical sort of the concatenated summary columns by scenario name
(comparison.py lines 39-40). -/
def sort_columns_by_name (l : List Scenario) : List Scenario :=
  l.foldr insert_by_name []

/-- IEEE division as performed by the comparison delta: a nonzero denominator
gives the exact quotient; a zero denominator gives NaN or ±inf, which is
represented by `none` and in particular is never equal to zero. -/
def float_div (a b : ℚ) : Option ℚ :=
  if b = 0 then none else some (a / b)

/-- The values column of one scenario's `get_summary_results()`. -/
def summary_values (s : Scenario) : List ℚ :=
  s.get_summary_results.map Prod.snd

/-- `ScenarioComparison.comparison_results` (comparison.py lines 43-51):
`(summary_results - ref.values) / ref.values`, i.e. for every compared
scenario column the row-positionwise fractional delta against the reference
scenario's own summary column. -/
def comparison_results (c : ScenarioComparison) :
    List (String × List (Option ℚ)) :=
  let ref_vals := summary_values c.reference_scenario
  (sort_columns_by_name c.list_scenarios).map
    (fun s => ⟨s.name,
      List.zipWith (fun v r => float_div (v - r) r) (summary_values s)
        ref_vals⟩)

/-! ## Scenario construction defaults (scenario.py lines 46-93) -/

/-- A time-indexed single-column table: (index instant, value) rows. -/
abbrev TimeTable := List (Int × ℚ)

/-- `Scenario.format_site_import_electricity_prices` (scenario.py lines
122-140): with exactly one column (always the case in this single-column
model) the time index is tz-localized or tz-converted and the column is
relabelled; neither changes the indexed instants or the values, so on this
model the formatting is the identity.  With any other column count the table
is likewise left untouched (only a warning is printed). -/
def format_site_import_electricity_prices (prices : TimeTable) : TimeTable :=
  prices

/-- `Scenario.set_default_import_electricity_emission_factor` (scenario.py
lines 77-93): if the emission-factor table is empty, replace it with a copy of
the import-price table whose every value is overwritten by the default
(0.150); otherwise leave it unchanged. -/
def set_default_import_electricity_emission_factor
    (import_prices ef : TimeTable) (value : ℚ) : TimeTable :=
  if ef.length = 0 then import_prices.map (fun p => ⟨p.1, value⟩) else ef

/-- `Scenario.set_default_export_electricity_prices` (scenario.py lines
61-75): same defaulting scheme with default value 0. -/
def set_default_export_electricity_prices
    (import_prices ep : TimeTable) (value : ℚ) : TimeTable :=
  if ep.length = 0 then import_prices.map (fun p => ⟨p.1, value⟩) else ep

/-- The table-initialisation part of `Scenario.__post_init__` (scenario.py
lines 46-50), in construction order: format the import prices, then default
the emission factor (0.150) from the formatted prices, then default the export
prices (0).  Returns (import prices, emission factor, export prices). -/
def scenario_init_tables (import_prices ef ep : TimeTable) :
    TimeTable × TimeTable × TimeTable :=
  let ip := format_site_import_electricity_prices import_prices
  let ef2 := set_default_import_electricity_emission_factor ip ef 0.150
  let ep2 := set_default_export_electricity_prices ip ep 0
  ⟨ip, ef2, ep2⟩

/-! ## Frame effects of the Scenario column accessors (scenario.py 95-113)

To state that `import_demand` and its siblings return a fresh copy, the
DataFrame objects are given an explicit heap: a `ColTable` is one DataFrame
value (labelled columns), the heap is the list of allocated DataFrame objects,
and a scenario field holds a reference (index) into the heap.  `.copy()`
allocates a fresh object. -/

/-- One DataFrame object: labelled columns of rationals. -/
abbrev ColTable := List (RowLabel × List ℚ)

/-- The heap of allocated DataFrame objects. -/
abbrev Heap := List ColTable

/-- Dereference a DataFrame object. -/
def heap_read (h : Heap) (ref : Nat) : ColTable :=
  h.getD ref []

/-- In-place mutation of the DataFrame object behind `ref`. -/
def heap_write (h : Heap) (ref : Nat) (t : ColTable) : Heap :=
  h.set ref t

/-- Allocation of a fresh DataFrame object; returns the new heap and the new
object's reference. -/
def heap_alloc (h : Heap) (t : ColTable) : Heap × Nat :=
  ⟨h ++ [t], h.length⟩

/-- The single field of a `Scenario` involved in the accessor frame claims: a
reference to its cached `site_energy_demand` DataFrame. -/
structure ScenarioRef where
  site_energy_demand_ref : Nat
deriving Repr

/-- `df[col]` column selection. -/
def lookup_column (t : ColTable) (lbl : RowLabel) : List ℚ :=
  ((t.find? (fun c => decide (c.1 = lbl))).map Prod.snd).getD []

/-- The accessor pattern shared by `Scenario.import_demand`,
`export_demand`, `avoided_import` and `onsite_generation`
(scenario.py lines 95-113):
`self.site_energy_demand[col_name].to_frame().copy()` — select the column
from the cached table and allocate a fresh single-column DataFrame holding a
copy of it. -/
def column_accessor (st : Heap) (sc : ScenarioRef) (lbl : RowLabel) :
    Heap × Nat :=
  let tbl := heap_read st sc.site_energy_demand_ref
  heap_alloc st [⟨lbl, lookup_column tbl lbl⟩]

/-! ## Concrete example scenarios used by witnesses and counterexamples -/

/-- A one-timestep scenario whose every annual metric is nonzero (its export
price is nonzero, so the export-revenue row does not vanish). -/
def witness_scenario_C2 : Scenario :=
  ⟨"W", ⟨[], [], []⟩, ⟨[2], [3], [4], [1], [6], [2]⟩,
    ⟨[2], [3], [4], [1], [6], [2], [5], [1], [3], [1], [1], [2]⟩⟩

/-- A one-timestep scenario with an export-revenue column of zeros — exactly
what the library's own default export price of 0 produces — so the annual
export-revenue metric is exactly zero. -/
def cex_scenario_C2 : Scenario :=
  ⟨"A", ⟨[], [], []⟩, ⟨[1], [1], [1], [1], [1], [1]⟩,
    ⟨[1], [1], [1], [1], [1], [1], [1], [0], [1], [1], [1], [1]⟩⟩

/-- A two-timestep scenario with one PV asset, used to witness the summary
computation. -/
def witness_scenario_C4 : Scenario :=
  ⟨"S", ⟨[⟨.PV, 5⟩], [⟨.PV, 1000⟩], [⟨.PV, 10⟩]⟩,
    ⟨[2, 3], [1, 0], [4, 4], [0, 0], [6, 2], [2, 1]⟩,
    ⟨[2, 3], [1, 0], [4, 4], [0, 0], [6, 2], [2, 1],
      [5, 1], [0, 0], [3, 2], [1, 1], [1, 2], [2, 2]⟩⟩

/-! ## Helper lemmas -/

/-- Indexing a `zipWith` at a position both inputs carry. -/
theorem zipWith_getElem_aux {α β γ : Type} (f : α → β → γ) :
    ∀ (as : List α) (bs : List β) (i : Nat) (a : α) (b : β),
      as[i]? = some a → bs[i]? = some b →
      (List.zipWith f as bs)[i]? = some (f a b) := by
  intro as
  induction as with
  | nil => intro bs i a b h1 h2; simp at h1
  | cons x xs ih =>
    intro bs i a b h1 h2
    cases bs with
    | nil => simp at h2
    | cons y ys =>
      cases i with
      | zero =>
        simp only [List.getElem?_cons_zero, Option.some.injEq] at h1 h2
        simp [h1, h2]
      | succ n =>
        simp only [List.getElem?_cons_succ] at h1 h2 ⊢
        simp only [List.zipWith_cons_cons, List.getElem?_cons_succ]
        exact ih ys n a b h1 h2

/-- An all-false mask of a table's length is the table's constant-false map. -/
theorem replicate_length_eq_map {α β : Type} (l : List α) (b : β) :
    List.replicate l.length b = l.map (fun _ => b) := by
  induction l with
  | nil => rfl
  | cons x xs ih =>
    rw [List.length_cons, List.replicate_succ, ih, List.map_cons]

/-- Position-wise combination of two masks derived from the same rows is the
row-wise combination. -/
theorem zipWith_map_same {α β γ δ : Type} (f : β → γ → δ) (g : α → β)
    (k : α → γ) (l : List α) :
    List.zipWith f (l.map g) (l.map k) = l.map (fun x => f (g x) (k x)) := by
  induction l with
  | nil => rfl
  | cons x xs ih => simp [ih]

/-- Under the default occupancy map, `get_filter` is the row-wise map of
`default_occupied`. -/
theorem get_filter_default_eq_map (dataf : List ScheduleRow) :
    get_filter default_occupancy dataf = dataf.map default_occupied := by
  simp only [get_filter, default_occupancy, List.foldl_cons, List.foldl_nil,
    or_operator, and_operator, replicate_length_eq_map, zipWith_map_same]
  simp [default_occupied, default_interval_occupied]

/-! ## Claims -/

/-- Claim C1: at every row where the export demand is strictly positive,
`get_avoided_electricity_import` returns the site's original (total stored)
site electricity demand at that row; at every other row it returns the onsite
generation unchanged. -/
theorem claim_C1 (site : SiteState) (onsite_gen export_demand : List ℚ)
    (i : Nat) (og e d : ℚ)
    (h1 : onsite_gen[i]? = some og) (h2 : export_demand[i]? = some e)
    (h3 : site.site_electricity_demand[i]? = some d) :
    (0 < e →
      (get_avoided_electricity_import site onsite_gen export_demand)[i]?
        = some d)
    ∧ (¬ 0 < e →
      (get_avoided_electricity_import site onsite_gen export_demand)[i]?
        = some og) := by
  have hzip : (export_demand.zip site.site_electricity_demand)[i]?
      = some ⟨e, d⟩ :=
    zipWith_getElem_aux Prod.mk _ _ i e d h2 h3
  have hmain :
      (get_avoided_electricity_import site onsite_gen export_demand)[i]?
        = some (if 0 < e then d else og) :=
    zipWith_getElem_aux
      (fun (og : ℚ) (p : ℚ × ℚ) => if 0 < p.1 then p.2 else og) onsite_gen
      (export_demand.zip site.site_electricity_demand) i og ⟨e, d⟩ h1 hzip
  refine ⟨fun he => ?_, fun he => ?_⟩
  · rw [hmain, if_pos he]
  · rw [hmain, if_neg he]

/-- Witness for C1 at a concrete input: export demand 1 is positive at row 0,
so the avoided import there is the stored site demand 10, not the onsite
generation 3; export demand -1 at row 1 leaves onsite generation 7. -/
theorem claim_C1_witness :
    (get_avoided_electricity_import ⟨[10, 20]⟩ [3, 7] [1, -1])[0]? = some 10
    ∧ (get_avoided_electricity_import ⟨[10, 20]⟩ [3, 7] [1, -1])[1]?
        = some 7 :=
  ⟨(claim_C1 ⟨[10, 20]⟩ [3, 7] [1, -1] 0 3 1 10 rfl rfl rfl).1 (by norm_num),
    (claim_C1 ⟨[10, 20]⟩ [3, 7] [1, -1] 1 7 (-1) 20 rfl rfl rfl).2
      (by norm_num)⟩

/-- Claim C3: the import/export split of a signed net demand zeroes the
negative entries on the import side and reports the negated positive-free
entries on the export side; a zero row yields zero on both sides. -/
theorem claim_C3 (dataf : List ℚ) (i : Nat) (v : ℚ)
    (h : dataf[i]? = some v) :
    (0 < v → (get_import_and_export_demand dataf).1[i]? = some v
      ∧ (get_import_and_export_demand dataf).2[i]? = some 0)
    ∧ (v < 0 → (get_import_and_export_demand dataf).1[i]? = some 0
      ∧ (get_import_and_export_demand dataf).2[i]? = some (-v))
    ∧ (v = 0 → (get_import_and_export_demand dataf).1[i]? = some 0
      ∧ (get_import_and_export_demand dataf).2[i]? = some 0) := by
  have hi : (get_import_and_export_demand dataf).1[i]?
      = some (if v < 0 then 0 else v) := by
    unfold get_import_and_export_demand
    simp [List.getElem?_map, h]
  have he : (get_import_and_export_demand dataf).2[i]?
      = some (-(if 0 < v then 0 else v)) := by
    unfold get_import_and_export_demand
    simp [List.getElem?_map, h]
  refine ⟨fun hv => ⟨?_, ?_⟩, fun hv => ⟨?_, ?_⟩, fun hv => ⟨?_, ?_⟩⟩
  · rw [hi, if_neg (lt_asymm hv)]
  · rw [he, if_pos hv, neg_zero]
  · rw [hi, if_pos hv]
  · rw [he, if_neg (lt_asymm hv)]
  · rw [hi, hv, if_neg (lt_irrefl 0)]
  · rw [he, hv]
    simp

/-- Witness for C3 at the spec's example [-5, 0, 5]: import = [0, 0, 5] and
export = [5, 0, 0], checked entrywise through the theorem. -/
theorem claim_C3_witness :
    ((get_import_and_export_demand [-5, 0, 5]).1[0]? = some 0
      ∧ (get_import_and_export_demand [-5, 0, 5]).2[0]? = some 5)
    ∧ ((get_import_and_export_demand [-5, 0, 5]).1[1]? = some 0
      ∧ (get_import_and_export_demand [-5, 0, 5]).2[1]? = some 0)
    ∧ ((get_import_and_export_demand [-5, 0, 5]).1[2]? = some 5
      ∧ (get_import_and_export_demand [-5, 0, 5]).2[2]? = some 0) := by
  refine ⟨?_, ?_, ?_⟩
  · have h := (claim_C3 [-5, 0, 5] 0 (-5) rfl).2.1 (by norm_num)
    simpa using h
  · exact (claim_C3 [-5, 0, 5] 1 0 rfl).2.2 rfl
  · exact (claim_C3 [-5, 0, 5] 2 5 rfl).1 (by norm_num)

/-- Claim C6: with the default occupancy map at half-hour resolution, a
Monday (day 0) row at half-hour index 20 is marked occupied, a Monday row at
index 40 is not, and every Saturday/Sunday (day 5 or 6) row is not occupied
regardless of its half-hour index. -/
theorem claim_C6 (dataf : List ScheduleRow) (i : Nat) (r : ScheduleRow)
    (h : dataf[i]? = some r) :
    (r.dayofweek = 0 → r.halfhour = 20 →
      (get_filter default_occupancy dataf)[i]? = some true)
    ∧ (r.dayofweek = 0 → r.halfhour = 40 →
      (get_filter default_occupancy dataf)[i]? = some false)
    ∧ ((r.dayofweek = 5 ∨ r.dayofweek = 6) →
      (get_filter default_occupancy dataf)[i]? = some false) := by
  rw [get_filter_default_eq_map]
  obtain ⟨dw, hh⟩ := r
  refine ⟨fun h0 h20 => ?_, fun h0 h40 => ?_, fun h56 => ?_⟩
  · have e0 : dw = 0 := h0
    have e20 : hh = 20 := h20
    subst e0; subst e20
    simp [List.getElem?_map, h, default_occupied, default_interval_occupied]
  · have e0 : dw = 0 := h0
    have e40 : hh = 40 := h40
    subst e0; subst e40
    simp [List.getElem?_map, h, default_occupied, default_interval_occupied]
  · rcases h56 with h5 | h6
    · have e5 : dw = 5 := h5
      subst e5
      simp [List.getElem?_map, h, default_occupied, default_interval_occupied]
    · have e6 : dw = 6 := h6
      subst e6
      simp [List.getElem?_map, h, default_occupied, default_interval_occupied]

/-- Witness for C6 on a concrete three-row table: Monday 08:00 (index 20)
occupied, Monday 20:00 (index 40) not, Saturday index 33 (inside the weekday
interval) not. -/
theorem claim_C6_witness :
    (get_filter default_occupancy [⟨0, 20⟩, ⟨0, 40⟩, ⟨5, 33⟩])[0]? = some true
    ∧ (get_filter default_occupancy [⟨0, 20⟩, ⟨0, 40⟩, ⟨5, 33⟩])[1]?
        = some false
    ∧ (get_filter default_occupancy [⟨0, 20⟩, ⟨0, 40⟩, ⟨5, 33⟩])[2]?
        = some false :=
  ⟨(claim_C6 _ 0 ⟨0, 20⟩ rfl).1 rfl rfl,
    (claim_C6 _ 1 ⟨0, 40⟩ rfl).2.1 rfl rfl,
    (claim_C6 _ 2 ⟨5, 33⟩ rfl).2.2 (Or.inl rfl)⟩

/-- Claim C7: value lookup on `EnergyCarrier` and `PhysicalQuantity` is total:
a declared member's raw value resolves to that member, and every other raw
value resolves to the sentinel `NONE` / `UNCATEGORIZED` instead of signalling
an error. -/
theorem claim_C7 :
    (∀ c : EnergyCarrier, EnergyCarrier.ofValue c.value = c)
    ∧ (∀ v : Int, (∀ c : EnergyCarrier, v ≠ c.value) →
        EnergyCarrier.ofValue v = EnergyCarrier.NONE)
    ∧ (∀ q : PhysicalQuantity, PhysicalQuantity.ofValue q.value = q)
    ∧ (∀ v : Int, (∀ q : PhysicalQuantity, v ≠ q.value) →
        PhysicalQuantity.ofValue v = PhysicalQuantity.UNCATEGORIZED) := by
  refine ⟨?_, ?_, ?_, ?_⟩
  · intro c; cases c <;> rfl
  · intro v h
    have n1 : v ≠ 1 := h .ELECTRICITY
    have n2 : v ≠ 2 := h .NATURALGAS
    have n3 : v ≠ 3 := h .HEATING
    have n4 : v ≠ 4 := h .COOLING
    have n5 : v ≠ 5 := h .UNCATEGORIZED
    have n6 : v ≠ 6 := h .NONE
    unfold EnergyCarrier.ofValue
    rw [if_neg n1, if_neg n2, if_neg n3, if_neg n4, if_neg n5, if_neg n6]
  · intro q; cases q <;> rfl
  · intro v h
    have n1 : v ≠ 1 := h .TEMPERATURE
    have n2 : v ≠ 2 := h .ENERGY
    have n3 : v ≠ 3 := h .TIME
    have n4 : v ≠ 4 := h .MASS
    have n5 : v ≠ 5 := h .LENGTH
    have n6 : v ≠ 6 := h .POWER
    have n7 : v ≠ 7 := h .UNCATEGORIZED
    unfold PhysicalQuantity.ofValue
    rw [if_neg n1, if_neg n2, if_neg n3, if_neg n4, if_neg n5, if_neg n6,
      if_neg n7]

/-- Witness for C7 at concrete raw values: the declared value 1 resolves to
the first member, and the undeclared value 99 resolves to the sentinel of
each enumeration. -/
theorem claim_C7_witness :
    EnergyCarrier.ofValue 1 = EnergyCarrier.ELECTRICITY
    ∧ EnergyCarrier.ofValue 99 = EnergyCarrier.NONE
    ∧ PhysicalQuantity.ofValue 99 = PhysicalQuantity.UNCATEGORIZED :=
  ⟨claim_C7.1 .ELECTRICITY,
    claim_C7.2.1 99 (fun c => by cases c <;> decide),
    claim_C7.2.2.2 99 (fun q => by cases q <;> decide)⟩

/-- Claim C9: `add_time_features` sets the half-hour index of every row to
hour times 2 plus the truncating integer division of minute by 30; at hour 13,
minute 30 this is 27. -/
theorem claim_C9 (rows : List Timestamp) (i : Nat) (t : Timestamp)
    (h : rows[i]? = some t) :
    ((add_time_features rows)[i]?).map TimeFeatures.halfhour
        = some (t.hour * 2 + t.minute / 30)
    ∧ (t.hour = 13 → t.minute = 30 →
      ((add_time_features rows)[i]?).map TimeFeatures.halfhour = some 27) := by
  have hmain : ((add_time_features rows)[i]?).map TimeFeatures.halfhour
      = some (t.hour * 2 + t.minute / 30) := by
    unfold add_time_features
    simp [List.getElem?_map, h]
  refine ⟨hmain, fun h13 h30 => ?_⟩
  rw [hmain, h13, h30]

/-- Witness for C9 at a concrete timestamp with hour 13, minute 30: the
half-hour index column holds 27. -/
theorem claim_C9_witness :
    ((add_time_features [⟨13, 30, 6, 2, 150, 2024⟩])[0]?).map
        TimeFeatures.halfhour = some 27 :=
  (claim_C9 [⟨13, 30, 6, 2, 150, 2024⟩] 0 ⟨13, 30, 6, 2, 150, 2024⟩ rfl).2
    rfl rfl

/-- Replacing every value of a time table keeps its row index. -/
theorem map_fst_map_setsnd (c : ℚ) (l : TimeTable) :
    (l.map (fun p => (⟨p.1, c⟩ : Int × ℚ))).map Prod.fst = l.map Prod.fst := by
  induction l with
  | nil => rfl
  | cons x xs ih => simp_all

/-- Two time tables with the same row index give the same table after every
value is replaced by the same constant. -/
theorem map_setsnd_congr (c : ℚ) :
    ∀ l1 l2 : TimeTable, l1.map Prod.fst = l2.map Prod.fst →
      l1.map (fun p => (⟨p.1, c⟩ : Int × ℚ))
        = l2.map (fun p => (⟨p.1, c⟩ : Int × ℚ)) := by
  intro l1
  induction l1 with
  | nil =>
    intro l2 h
    cases l2 with
    | nil => rfl
    | cons y ys => simp at h
  | cons x xs ih =>
    intro l2 h
    cases l2 with
    | nil => simp at h
    | cons y ys =>
      simp only [List.map_cons, List.cons.injEq] at h ⊢
      exact ⟨by simp [h.1], ih ys h.2⟩

/-- Claim C5: constructing a Scenario with no supplied emission factor gives
an emission-factor table with the same length and the same row index as the
formatted import-price table, every value 0.150, independent of the import
price values. -/
theorem claim_C5 (import_prices ep : TimeTable) :
    ((scenario_init_tables import_prices [] ep).2.1).length
        = ((scenario_init_tables import_prices [] ep).1).length
    ∧ ((scenario_init_tables import_prices [] ep).2.1).map Prod.fst
        = ((scenario_init_tables import_prices [] ep).1).map Prod.fst
    ∧ (∀ p ∈ (scenario_init_tables import_prices [] ep).2.1, p.2 = 0.150)
    ∧ (∀ other : TimeTable,
        other.map Prod.fst = import_prices.map Prod.fst →
        (scenario_init_tables other [] ep).2.1
          = (scenario_init_tables import_prices [] ep).2.1) := by
  have hef : ∀ l : TimeTable, (scenario_init_tables l [] ep).2.1
      = l.map (fun p => (⟨p.1, 0.150⟩ : Int × ℚ)) := by
    intro l
    simp [scenario_init_tables,
      set_default_import_electricity_emission_factor,
      format_site_import_electricity_prices]
  refine ⟨?_, ?_, ?_, ?_⟩
  · rw [hef]
    simp [scenario_init_tables, format_site_import_electricity_prices]
  · rw [hef]
    exact map_fst_map_setsnd 0.150 import_prices
  · intro p hp
    rw [hef] at hp
    simp only [List.mem_map] at hp
    obtain ⟨q, hq, hqp⟩ := hp
    rw [← hqp]
  · intro other hother
    rw [hef, hef]
    exact map_setsnd_congr 0.150 other import_prices hother

/-- Witness for C5 on a concrete two-row price table: the defaulted emission
factor has the price table's length, holds 0.150 at its first row, and is
unchanged when the price values (but not the index) change. -/
theorem claim_C5_witness :
    ((scenario_init_tables [⟨0, 1/4⟩, ⟨1800, 9/2⟩] [] []).2.1).length
        = ((scenario_init_tables [⟨0, 1/4⟩, ⟨1800, 9/2⟩] [] []).1).length
    ∧ (⟨0, 0.150⟩ : Int × ℚ).2 = 0.150
    ∧ (scenario_init_tables [⟨0, 7⟩, ⟨1800, 8⟩] [] []).2.1
        = (scenario_init_tables [⟨0, 1/4⟩, ⟨1800, 9/2⟩] [] []).2.1 :=
  ⟨(claim_C5 [⟨0, 1/4⟩, ⟨1800, 9/2⟩] []).1,
    (claim_C5 [⟨0, 1/4⟩, ⟨1800, 9/2⟩] []).2.2.1 ⟨0, 0.150⟩
      (by simp [scenario_init_tables,
        set_default_import_electricity_emission_factor,
        format_site_import_electricity_prices]),
    (claim_C5 [⟨0, 1/4⟩, ⟨1800, 9/2⟩] []).2.2.2 [⟨0, 7⟩, ⟨1800, 8⟩]
      (by simp)⟩

/-- Claim C8: every cell of the dummy price profile is the rate of the first
declared DUoS band whose inclusive time-of-day range contains the timestep's
time-of-day; at exactly 16:00:00 (half-hour slot 32 of the day) this is the
red band rate red + day = 0.0518 + 0.1950, not the amber rate
0.00518 + 0.1950. -/
theorem claim_C8 (year k : Nat) (h : k < 48 * days_in_year year) :
    (generate_dummy_price_profile year)[k]?
        = some (price_lookup dummy_duos_values ((k % 48) * 1800))
    ∧ (k % 48 = 32 →
      (generate_dummy_price_profile year)[k]?
          = some (some ((0.0518 : ℚ) + 0.1950)))
    ∧ ((0.0518 + 0.1950 : ℚ) ≠ 0.00518 + 0.1950) := by
  have hidx : (generate_annual_timesteps year)[k]? = some ((k % 48) * 1800) := by
    unfold generate_annual_timesteps
    simp [List.getElem?_map, List.getElem?_range, h]
  have hmain : (generate_dummy_price_profile year)[k]?
      = some (price_lookup dummy_duos_values ((k % 48) * 1800)) := by
    unfold generate_dummy_price_profile
    simp [List.getElem?_map, hidx]
  refine ⟨hmain, fun h32 => ?_, by norm_num⟩
  rw [hmain, h32]
  norm_num [price_lookup, dummy_duos_values, dummy_duos_timetable, time_hms,
    List.findSome?]

/-- Witness for C8: in 2024, timestep 32 (16:00:00 on Jan 1) carries the red
day rate. -/
theorem claim_C8_witness :
    (generate_dummy_price_profile 2024)[32]?
        = some (some ((0.0518 : ℚ) + 0.1950)) :=
  (claim_C8 2024 32 (by norm_num [days_in_year, is_leap_year])).2.1 rfl

/-- Claim C10: each column accessor allocates a fresh DataFrame object, so
mutating the returned table leaves the scenario's cached site_energy_demand
object — and hence any metric computed from it afterwards — unchanged. -/
theorem claim_C10 (st : Heap) (sc : ScenarioRef) (lbl : RowLabel)
    (hread : sc.site_energy_demand_ref < st.length)
    (_hl : lbl ∈ [RowLabel.IMPORT_ELECTRICITY_DEMAND,
      RowLabel.EXPORT_ELECTRICITY_DEMAND, RowLabel.SELF_CONSUMED_ELECTRICITY,
      RowLabel.ELECTRICITY_GENERATION])
    (mutated : ColTable) :
    (column_accessor st sc lbl).2 ≠ sc.site_energy_demand_ref
    ∧ heap_read (heap_write (column_accessor st sc lbl).1
        (column_accessor st sc lbl).2 mutated) sc.site_energy_demand_ref
      = heap_read st sc.site_energy_demand_ref
    ∧ ∀ metric : ColTable → List ℚ,
        metric (heap_read (heap_write (column_accessor st sc lbl).1
          (column_accessor st sc lbl).2 mutated) sc.site_energy_demand_ref)
        = metric (heap_read st sc.site_energy_demand_ref) := by
  have hsnd : (column_accessor st sc lbl).2 = st.length := rfl
  have hfst : (column_accessor st sc lbl).1 = st ++
      [[⟨lbl, lookup_column (heap_read st sc.site_energy_demand_ref) lbl⟩]] :=
    rfl
  have hpres : heap_read (heap_write (column_accessor st sc lbl).1
      (column_accessor st sc lbl).2 mutated) sc.site_energy_demand_ref
      = heap_read st sc.site_energy_demand_ref := by
    rw [hsnd, hfst]
    unfold heap_read heap_write
    rw [List.getD_eq_getElem?_getD, List.getD_eq_getElem?_getD,
      List.getElem?_set_ne (ne_of_gt hread),
      List.getElem?_append_left hread]
  refine ⟨?_, hpres, fun metric => congrArg metric hpres⟩
  rw [hsnd]
  exact ne_of_gt hread

/-- Witness for C10 on a one-object heap: the accessor's returned reference
is not the scenario's own reference, and writing through it preserves the
cached table. -/
theorem claim_C10_witness :
    (column_accessor [[⟨RowLabel.IMPORT_ELECTRICITY_DEMAND, [1, 2]⟩]] ⟨0⟩
        RowLabel.IMPORT_ELECTRICITY_DEMAND).2 ≠ 0
    ∧ heap_read (heap_write
        (column_accessor [[⟨RowLabel.IMPORT_ELECTRICITY_DEMAND, [1, 2]⟩]] ⟨0⟩
          RowLabel.IMPORT_ELECTRICITY_DEMAND).1
        (column_accessor [[⟨RowLabel.IMPORT_ELECTRICITY_DEMAND, [1, 2]⟩]] ⟨0⟩
          RowLabel.IMPORT_ELECTRICITY_DEMAND).2 []) 0
      = heap_read [[⟨RowLabel.IMPORT_ELECTRICITY_DEMAND, [1, 2]⟩]] 0 :=
  have h := claim_C10 [[⟨RowLabel.IMPORT_ELECTRICITY_DEMAND, [1, 2]⟩]] ⟨0⟩
    RowLabel.IMPORT_ELECTRICITY_DEMAND (by decide) (by simp) []
  ⟨h.1, h.2.1⟩

/-! ## Lemmas about the labelled summary table -/

/-- Reading an empty labelled table gives the missing default. -/
theorem getRow_nil (lbl : RowLabel) : getRow [] lbl = 0 := rfl

/-- Reading a labelled table one row at a time. -/
theorem getRow_cons (r : RowLabel × ℚ) (t : List (RowLabel × ℚ))
    (lbl : RowLabel) :
    getRow (r :: t) lbl = if r.1 = lbl then r.2 else getRow t lbl := by
  by_cases hr : r.1 = lbl
  · simp [getRow, List.find?, hr]
  · simp [getRow, List.find?, hr]

/-- Writing a row and reading it back gives the written value. -/
theorem getRow_setRow_self (tbl : List (RowLabel × ℚ)) (lbl : RowLabel)
    (v : ℚ) : getRow (setRow tbl lbl v) lbl = v := by
  induction tbl with
  | nil => simp [setRow, getRow_cons]
  | cons r t ih =>
    by_cases hr : r.1 = lbl
    · simp [setRow, hr, getRow_cons]
    · simp [setRow, hr, getRow_cons, ih]

/-- Writing one row leaves every other row's value unchanged. -/
theorem getRow_setRow_ne (tbl : List (RowLabel × ℚ)) (lbl : RowLabel) (v : ℚ)
    (lbl2 : RowLabel) (h : lbl ≠ lbl2) :
    getRow (setRow tbl lbl v) lbl2 = getRow tbl lbl2 := by
  induction tbl with
  | nil => simp [setRow, getRow_cons, getRow_nil, h]
  | cons r t ih =>
    by_cases hr : r.1 = lbl
    · simp [setRow, hr, getRow_cons, h]
    · simp [setRow, hr, getRow_cons, ih]

/-- A fold of row writes whose labels all differ from the read label leaves
that row's value unchanged. -/
theorem getRow_foldl_setRow {α : Type} (g : α → RowLabel) (f : α → ℚ) :
    ∀ (l : List α) (tbl : List (RowLabel × ℚ)) (lbl : RowLabel),
      (∀ a ∈ l, g a ≠ lbl) →
      getRow (l.foldl (fun acc a => setRow acc (g a) (f a)) tbl) lbl
        = getRow tbl lbl := by
  intro l
  induction l with
  | nil => intro tbl lbl h; rfl
  | cons x xs ih =>
    intro tbl lbl h
    rw [List.foldl_cons,
      ih _ lbl (fun a ha => h a (List.mem_cons_of_mem x ha)),
      getRow_setRow_ne tbl (g x) (f x) lbl (h x (List.mem_cons_self x xs))]

/-- The peak-import row of the summary is the import-demand maximum times 2. -/
theorem getRow_summary_peak_import (s : Scenario) :
    getRow s.get_summary_results RowLabel.PEAK_ELECTRICITY_IMPORT
      = listMax s.import_demand * 2 := by
  simp only [Scenario.get_summary_results, get_capex_by_technology,
    get_capacity_by_technology, calculate_total_opex]
  rw [getRow_foldl_setRow (fun p => RowLabel.CAPACITY_INSTALLED p.1) Prod.snd
      s.site_model.size_system _ _ (fun a ha => by simp),
    getRow_setRow_ne _ RowLabel.OPEX _ _ (by simp),
    getRow_setRow_ne _ RowLabel.OPEX _ _ (by simp),
    getRow_foldl_setRow (fun p => RowLabel.CAPEX p.1) Prod.snd
      s.site_model.capital_cost _ _ (fun a ha => by simp),
    getRow_setRow_ne _ RowLabel.PEAK_ELECTRICITY_EXPORT _ _ (by simp),
    getRow_setRow_self]

/-- The peak-export row of the summary is the export-demand maximum times 2. -/
theorem getRow_summary_peak_export (s : Scenario) :
    getRow s.get_summary_results RowLabel.PEAK_ELECTRICITY_EXPORT
      = listMax s.export_demand * 2 := by
  simp only [Scenario.get_summary_results, get_capex_by_technology,
    get_capacity_by_technology, calculate_total_opex]
  rw [getRow_foldl_setRow (fun p => RowLabel.CAPACITY_INSTALLED p.1) Prod.snd
      s.site_model.size_system _ _ (fun a ha => by simp),
    getRow_setRow_ne _ RowLabel.OPEX _ _ (by simp),
    getRow_setRow_ne _ RowLabel.OPEX _ _ (by simp),
    getRow_foldl_setRow (fun p => RowLabel.CAPEX p.1) Prod.snd
      s.site_model.capital_cost _ _ (fun a ha => by simp),
    getRow_setRow_self]

/-- A row that is neither a peak row, a per-technology row nor the OPEX row
keeps the value it has in the column-sums table. -/
theorem getRow_summary_untouched (s : Scenario) (lbl : RowLabel)
    (h1 : lbl ≠ RowLabel.PEAK_ELECTRICITY_IMPORT)
    (h2 : lbl ≠ RowLabel.PEAK_ELECTRICITY_EXPORT)
    (h3 : ∀ t : TechnologyType, lbl ≠ RowLabel.CAPEX t)
    (h4 : ∀ t : TechnologyType, lbl ≠ RowLabel.CAPACITY_INSTALLED t)
    (h5 : lbl ≠ RowLabel.OPEX) :
    getRow s.get_summary_results lbl
      = getRow (summary_column_sums s.summary_results) lbl := by
  simp only [Scenario.get_summary_results, get_capex_by_technology,
    get_capacity_by_technology, calculate_total_opex]
  rw [getRow_foldl_setRow (fun p => RowLabel.CAPACITY_INSTALLED p.1) Prod.snd
      s.site_model.size_system _ _ (fun a ha => Ne.symm (h4 a.1)),
    getRow_setRow_ne _ RowLabel.OPEX _ _ (Ne.symm h5),
    getRow_setRow_ne _ RowLabel.OPEX _ _ (Ne.symm h5),
    getRow_foldl_setRow (fun p => RowLabel.CAPEX p.1) Prod.snd
      s.site_model.capital_cost _ _ (fun a ha => Ne.symm (h3 a.1)),
    getRow_setRow_ne _ RowLabel.PEAK_ELECTRICITY_EXPORT _ _ (Ne.symm h2),
    getRow_setRow_ne _ RowLabel.PEAK_ELECTRICITY_IMPORT _ _ (Ne.symm h1)]

/-- Claim C4: for a scenario with non-empty cached results,
`get_summary_results` reports the peak-import row as exactly 2 times the
maximum of the import-demand column and the peak-export row as exactly 2
times the maximum of the export-demand column, while the row of every one of
the twelve per-timestep summary columns is that column's sum over the whole
period. -/
theorem claim_C4 (s : Scenario)
    (_h1 : s.site_energy_demand.import_demand ≠ [])
    (_h2 : s.site_energy_demand.export_demand ≠ []) :
    getRow s.get_summary_results RowLabel.PEAK_ELECTRICITY_IMPORT
        = 2 * listMax s.site_energy_demand.import_demand
    ∧ getRow s.get_summary_results RowLabel.PEAK_ELECTRICITY_EXPORT
        = 2 * listMax s.site_energy_demand.export_demand
    ∧ getRow s.get_summary_results RowLabel.IMPORT_ELECTRICITY_DEMAND
        = s.summary_results.import_demand.sum
    ∧ getRow s.get_summary_results RowLabel.EXPORT_ELECTRICITY_DEMAND
        = s.summary_results.export_demand.sum
    ∧ getRow s.get_summary_results RowLabel.ELECTRICITY_GENERATION
        = s.summary_results.onsite_generation.sum
    ∧ getRow s.get_summary_results RowLabel.ADDITIONAL_ELECTRICITY_DEMAND
        = s.summary_results.additional_demand.sum
    ∧ getRow s.get_summary_results RowLabel.INIT_SITE_ELECTRICITY_DEMAND
        = s.summary_results.site_demand.sum
    ∧ getRow s.get_summary_results RowLabel.SELF_CONSUMED_ELECTRICITY
        = s.summary_results.avoided_import.sum
    ∧ getRow s.get_summary_results RowLabel.IMPORT_ELECTRICITY_COSTS
        = s.summary_results.import_costs.sum
    ∧ getRow s.get_summary_results RowLabel.EXPORT_ELECTRICITY_REVENUES
        = s.summary_results.export_revenues.sum
    ∧ getRow s.get_summary_results RowLabel.ELECTRICITY_SAVINGS
        = s.summary_results.savings.sum
    ∧ getRow s.get_summary_results RowLabel.GHG_EMISSIONS_IMPORT_ELECTRICITY
        = s.summary_results.emissions_import.sum
    ∧ getRow s.get_summary_results RowLabel.SITE_GHG_EMISSIONS_DISPLACED
        = s.summary_results.site_displaced.sum
    ∧ getRow s.get_summary_results RowLabel.TOTAL_GHG_EMISSIONS_DISPLACED
        = s.summary_results.total_displaced.sum := by
  refine ⟨?_, ?_, ?_, ?_, ?_, ?_, ?_, ?_, ?_, ?_, ?_, ?_, ?_, ?_⟩
  · rw [getRow_summary_peak_import]
    simp only [Scenario.import_demand]
    exact mul_comm _ 2
  · rw [getRow_summary_peak_export]
    simp only [Scenario.export_demand]
    exact mul_comm _ 2
  all_goals (
    rw [getRow_summary_untouched s _ (by simp) (by simp) (fun t => by simp)
      (fun t => by simp) (by simp)]
    simp [summary_column_sums, getRow_cons])

/-- Witness for C4 on a concrete two-timestep scenario with one PV asset:
peak import is 2 times max [2, 3] = 6, peak export is 2 times max [1, 0] = 2,
and the import-cost row is the sum of [5, 1]. -/
theorem claim_C4_witness :
    getRow witness_scenario_C4.get_summary_results
        RowLabel.PEAK_ELECTRICITY_IMPORT = 6
    ∧ getRow witness_scenario_C4.get_summary_results
        RowLabel.PEAK_ELECTRICITY_EXPORT = 2
    ∧ getRow witness_scenario_C4.get_summary_results
        RowLabel.IMPORT_ELECTRICITY_COSTS = 6 := by
  have h := claim_C4 witness_scenario_C4 (by simp [witness_scenario_C4])
    (by simp [witness_scenario_C4])
  refine ⟨?_, ?_, ?_⟩
  · rw [h.1]
    norm_num [witness_scenario_C4, listMax]
  · rw [h.2.1]
    norm_num [witness_scenario_C4, listMax]
  · rw [h.2.2.2.2.2.2.2.2.1]
    norm_num [witness_scenario_C4]

/-- The inserted scenario is a member of the insertion result. -/
theorem self_mem_insert_by_name (s : Scenario) :
    ∀ l : List Scenario, s ∈ insert_by_name s l := by
  intro l
  induction l with
  | nil => simp [insert_by_name]
  | cons x xs ih =>
    rw [insert_by_name]
    split
    · exact List.mem_cons_self s (x :: xs)
    · exact List.mem_cons_of_mem x ih

/-- Insertion preserves the members of the original list. -/
theorem mem_insert_by_name_of_mem (s a : Scenario) :
    ∀ l : List Scenario, a ∈ l → a ∈ insert_by_name s l := by
  intro l
  induction l with
  | nil => intro h; exact absurd h (List.not_mem_nil a)
  | cons x xs ih =>
    intro h
    rw [insert_by_name]
    split
    · exact List.mem_cons_of_mem s h
    · rcases List.mem_cons.mp h with rfl | hmem
      · exact List.mem_cons_self a _
      · exact List.mem_cons_of_mem x (ih hmem)

/-- Alphabetical column sorting preserves membership. -/
theorem mem_sort_columns_by_name (a : Scenario) :
    ∀ l : List Scenario, a ∈ l → a ∈ sort_columns_by_name l := by
  intro l
  induction l with
  | nil => intro h; exact absurd h (List.not_mem_nil a)
  | cons x xs ih =>
    intro h
    rcases List.mem_cons.mp h with rfl | hmem
    · exact self_mem_insert_by_name a (sort_columns_by_name xs)
    · exact mem_insert_by_name_of_mem x a (sort_columns_by_name xs) (ih hmem)

/-- Claim C2 (amended): when the reference scenario is itself among the
compared list AND every metric row of the reference's own summary column is
nonzero, `comparison_results` yields exactly zero for every metric row in the
column keyed by the reference scenario's name.  (When some reference metric is
exactly zero, the unguarded division makes that row of the column an
undefined floating value rather than zero — see the counterexample.) -/
theorem claim_C2_amended (c : ScenarioComparison)
    (hmem : c.reference_scenario ∈ c.list_scenarios)
    (hnz : ∀ r ∈ summary_values c.reference_scenario, r ≠ 0) :
    ∃ col, (⟨c.reference_scenario.name, col⟩ : String × List (Option ℚ))
        ∈ comparison_results c
      ∧ ∀ x ∈ col, x = some 0 := by
  refine ⟨List.zipWith (fun v r => float_div (v - r) r)
      (summary_values c.reference_scenario)
      (summary_values c.reference_scenario), ?_, ?_⟩
  · simp only [comparison_results]
    exact List.mem_map_of_mem _
      (mem_sort_columns_by_name _ _ hmem)
  · rw [List.zipWith_same]
    intro x hx
    simp only [List.mem_map] at hx
    obtain ⟨r, hr, hxr⟩ := hx
    rw [← hxr]
    unfold float_div
    rw [if_neg (hnz r hr)]
    simp

/-- Witness for the amended C2 on a concrete self-comparison whose reference
summary column is nonzero in every metric row: the reference's own delta
column exists and is identically zero. -/
theorem claim_C2_amended_witness :
    ∃ col, (⟨"W", col⟩ : String × List (Option ℚ))
        ∈ comparison_results ⟨witness_scenario_C2, [witness_scenario_C2]⟩
      ∧ ∀ x ∈ col, x = some 0 := by
  have hvals : summary_values witness_scenario_C2
      = [2, 3, 4, 1, 6, 2, 5, 1, 3, 1, 1, 2, 4, 6, 4] := by
    simp [summary_values, Scenario.get_summary_results,
      summary_column_sums, get_capex_by_technology, get_capacity_by_technology,
      calculate_total_opex, setRow, getRow_nil, getRow_cons, listMax,
      Scenario.import_demand, Scenario.export_demand,
      witness_scenario_C2]
    norm_num
  have h := claim_C2_amended ⟨witness_scenario_C2, [witness_scenario_C2]⟩
    (by simp)
    (by
      intro r hr
      rw [hvals] at hr
      simp only [List.mem_cons, List.not_mem_nil, or_false] at hr
      rcases hr with rfl | rfl | rfl | rfl | rfl | rfl | rfl | rfl | rfl |
        rfl | rfl | rfl | rfl | rfl | rfl <;> norm_num)
  exact h

/-- Counterexample for C2 as stated: for the self-comparison of a scenario
whose export-revenue metric is exactly zero (the library's own default export
price of 0 produces exactly this), the reference's own delta column is NOT
zero at every metric row — the export-revenue row is the undefined result of
dividing by zero. -/
theorem claim_C2_counterexample :
    ¬ ∀ col : List (Option ℚ),
        (⟨"A", col⟩ : String × List (Option ℚ))
          ∈ comparison_results ⟨cex_scenario_C2, [cex_scenario_C2]⟩ →
        ∀ x ∈ col, x = some 0 := by
  intro hall
  have hcomp : comparison_results ⟨cex_scenario_C2, [cex_scenario_C2]⟩
      = [⟨"A", [some 0, some 0, some 0, some 0, some 0, some 0, some 0, none,
          some 0, some 0, some 0, some 0, some 0, some 0, some 0]⟩] := by
    simp [comparison_results, sort_columns_by_name, insert_by_name,
      summary_values, Scenario.get_summary_results, summary_column_sums,
      get_capex_by_technology, get_capacity_by_technology,
      calculate_total_opex, setRow, getRow_nil, getRow_cons, listMax,
      Scenario.import_demand, Scenario.export_demand, float_div,
      cex_scenario_C2]
  have hnone := hall
    [some 0, some 0, some 0, some 0, some 0, some 0, some 0, none,
      some 0, some 0, some 0, some 0, some 0, some 0, some 0]
    (by rw [hcomp]; exact List.mem_singleton_self _) none (by simp)
  simp at hnone

end E2s
